import Mathlib

/-!
Shallow embedding of the HR Recruiting Assistant workflow core:
the JSON-RPC invoker (`make_rpc_call` in `main.py`, `a2a_call` in
`app/tools.py`), the capability adapters (`authenticate_user`,
`find_candidates`, `store_candidate` in `app/tools.py`;
`login_user`, `search_job_candidates`, `save_candidate_record`
in `main.py`; `save_candidate_record` in `hr_recruiting_assistant/tools.py`;
`login_user` in `hr_assistant/agent.py`), the endpoint resolver
(`resolve_url`, an `lru_cache`-decorated coroutine), and the
spec-described workflow saving loop.

Remote behaviour is modelled by a `Wire` value: either a parsed JSON
body from a 2xx response, or one of the transport-level failures the
Python code catches (HTTP status >= 400, timeout, network error,
JSON decode error).  Python exceptions are modelled with `Except`:
a function that can raise returns `Except String _`.
-/

/-- A parsed JSON value, as produced by `response.json()` in the Python code.
Numbers are modelled as integers (the services exchange ids and counts only). -/
inductive Json where
  | null
  | bool (b : Bool)
  | num (n : Int)
  | str (s : String)
  | arr (elems : List Json)
  | obj (members : List (String × Json))
deriving Repr

mutual

/-- Structural equality of JSON values (Python `==` between JSON-shaped data:
values of different types compare unequal, same types compare componentwise). -/
def Json.beq : Json → Json → Bool
  | .null, .null => true
  | .bool a, .bool b => a == b
  | .num a, .num b => a == b
  | .str a, .str b => a == b
  | .arr a, .arr b => Json.beqArr a b
  | .obj a, .obj b => Json.beqObj a b
  | _, _ => false

def Json.beqArr : List Json → List Json → Bool
  | [], [] => true
  | x :: xs, y :: ys => Json.beq x y && Json.beqArr xs ys
  | _, _ => false

def Json.beqObj : List (String × Json) → List (String × Json) → Bool
  | [], [] => true
  | (k, v) :: xs, (l, w) :: ys => k == l && Json.beq v w && Json.beqObj xs ys
  | _, _ => false

end

instance : BEq Json := ⟨Json.beq⟩

/-- Python truthiness of a JSON-shaped value (`bool(x)`): `None`, `False`, `0`,
empty string, empty list and empty dict are falsy. -/
def Json.truthy : Json → Bool
  | .null => false
  | .bool b => b
  | .num n => n != 0
  | .str s => !s.isEmpty
  | .arr xs => !xs.isEmpty
  | .obj kvs => !kvs.isEmpty

/-- Dictionary lookup (`d[k]` / `d.get(k)` on a Python dict): first binding wins
(Python dicts have unique keys, so first-match is exact on real data). -/
def lookupJ : List (String × Json) → String → Option Json
  | [], _ => none
  | (k, v) :: rest, key => if k == key then some v else lookupJ rest key

/-- Python `d.get(k, default)` on a dict. -/
def getJD (kvs : List (String × Json)) (key : String) (dflt : Json) : Json :=
  (lookupJ kvs key).getD dflt

/-- Key membership `k in d` restricted to dicts; `false` on every other value. -/
def Json.hasKeyB : Json → String → Bool
  | .obj kvs, key => (lookupJ kvs key).isSome
  | _, _ => false

/-- Holds when `pat` is an initial segment of the character list. -/
def charsStartWith : List Char → List Char → Bool
  | [], _ => true
  | _ :: _, [] => false
  | a :: as, b :: bs => a == b && charsStartWith as bs

/-- Holds when `pat` occurs somewhere in the character list. -/
def charsContains (pat : List Char) : List Char → Bool
  | [] => pat.isEmpty
  | c :: cs => charsStartWith pat (c :: cs) || charsContains pat cs

/-- Python `pat in s` on strings: substring containment. -/
def strContains (s pat : String) : Bool := charsContains pat.data s.data

/-- Python `key in data` for arbitrary `data`: key membership for dicts,
element membership for lists, substring for strings, and a `TypeError`
for the remaining (non-container) values. -/
def pyContains : Json → String → Except String Bool
  | .obj kvs, key => .ok (lookupJ kvs key).isSome
  | .arr xs, key => .ok (xs.contains (Json.str key))
  | .str s, key => .ok (strContains s key)
  | _, _ => .error "TypeError: argument is not iterable"

/-- Python `data[key]` for arbitrary `data`: dict lookup (a `KeyError` when the
key is absent), and a `TypeError` on every non-dict value. -/
def pyIndex : Json → String → Except String Json
  | .obj kvs, key =>
      match lookupJ kvs key with
      | some v => .ok v
      | none => .error "KeyError"
  | _, _ => .error "TypeError: value is not subscriptable"

/-- One remote interaction as seen by the HTTP client: either a parsed JSON
body from a successful response, or one of the failure modes the Python code
handles (`status_code >= 400`, `httpx.TimeoutException`, `httpx.RequestError`,
or a body that fails to parse as JSON). -/
inductive FailKind where
  | httpStatus (code : Nat) (text : String)
  | timeout
  | netError (msg : String)
  | badJson (msg : String)
deriving Repr

inductive Wire where
  | ok (data : Json)
  | fail (k : FailKind)
deriving Repr

def Json.isObjB : Json → Bool
  | .obj _ => true
  | _ => false

def Json.isArrB : Json → Bool
  | .arr _ => true
  | _ => false

/-! ## RPC Invoker, variant 1: `a2a_call` (`src/app/tools.py` lines 20-64,
identical in `src/hr_assistant/tools.py`).  Every failure is downgraded to a
dict carrying an `"error"` key; on a well-formed success envelope the bare
`result` payload is returned. -/

def a2a_call (method : String) (w : Wire) : Json :=
  match w with
  | .fail (.httpStatus code text) =>
      Json.obj [("error", Json.str ("HTTP error " ++ toString code ++ " from target service")),
                ("details", Json.str text)]
  | .fail .timeout =>
      Json.obj [("error", Json.str ("Request to " ++ method ++ " timed out"))]
  | .fail (.netError msg) =>
      Json.obj [("error", Json.str ("Cannot connect to service. Details: " ++ msg))]
  | .fail (.badJson msg) =>
      Json.obj [("error", Json.str ("An unexpected error occurred: " ++ msg))]
  | .ok data =>
      match pyContains data "error" with
      | .error e => Json.obj [("error", Json.str ("An unexpected error occurred: " ++ e))]
      | .ok true =>
          match pyIndex data "error" with
          | .error e => Json.obj [("error", Json.str ("An unexpected error occurred: " ++ e))]
          | .ok (.obj ekvs) =>
              Json.obj [("error", getJD ekvs "message" (Json.str "Unknown A2A error")),
                        ("error_details", Json.obj ekvs)]
          | .ok _ =>
              -- `error_info.get(...)` on a non-dict raises AttributeError, caught below
              Json.obj [("error", Json.str "An unexpected error occurred: AttributeError")]
      | .ok false =>
          match pyContains data "result" with
          | .error e => Json.obj [("error", Json.str ("An unexpected error occurred: " ++ e))]
          | .ok true =>
              match pyIndex data "result" with
              | .error e => Json.obj [("error", Json.str ("An unexpected error occurred: " ++ e))]
              | .ok r => r
          | .ok false => Json.obj [("error", Json.str "Invalid JSON-RPC response structure")]

/-! ## RPC Invoker, variant 2: `make_rpc_call` (`src/main.py` lines 52-97,
identical in `src/hr_assistant/agent.py`).  Failures are raised as exceptions,
modelled as `Except.error` of the exception kind. -/

inductive RpcErr where
  /-- A `RuntimeError("Agent Error: ...")` raised when the envelope carries `error`. -/
  | agentError (message : Json) (code : Json)
  /-- A `ValueError` raised when the envelope carries neither `result` nor `error`. -/
  | invalidStructure
  /-- A `TimeoutError` re-raised from `httpx.TimeoutException`. -/
  | timeoutErr
  /-- A `ConnectionError` re-raised from `httpx.RequestError`. -/
  | connectionErr
  /-- An `Exception("Failed RPC call ...")` for every other failure
  (`raise_for_status` on a 4xx/5xx, JSON decode errors, `TypeError`s, ...). -/
  | failedCall
deriving Repr

/-- Python `str(e)` of the raised exception, as interpolated into the failure dicts
the tool functions build. -/
def RpcErr.toMessage : RpcErr → String
  | .agentError _ _ => "Agent Error"
  | .invalidStructure => "Invalid JSON-RPC response structure received."
  | .timeoutErr => "Timeout calling method"
  | .connectionErr => "Network error calling method"
  | .failedCall => "Failed RPC call"

def make_rpc_call (method : String) (w : Wire) : Except RpcErr Json :=
  match w with
  | .fail .timeout => .error .timeoutErr
  | .fail (.netError _) => .error .connectionErr
  | .fail (.httpStatus _ _) => .error .failedCall
  | .fail (.badJson _) => .error .failedCall
  | .ok data =>
      match pyContains data "error" with
      | .error _ => .error .failedCall
      | .ok true =>
          match pyIndex data "error" with
          | .error _ => .error .failedCall
          | .ok (.obj ekvs) =>
              .error (.agentError (getJD ekvs "message" (Json.str "Unknown RPC error"))
                                  (getJD ekvs "code" (Json.str "N/A")))
          | .ok _ => .error .failedCall
      | .ok false =>
          match pyContains data "result" with
          | .error _ => .error .failedCall
          | .ok true =>
              match pyIndex data "result" with
              | .error _ => .error .failedCall
              | .ok r => .ok r
          | .ok false => .error .invalidStructure

def isOkE : Except ε α → Bool
  | .ok _ => true
  | .error _ => false

/-! ## Capability adapter: `authenticate_user` (`src/app/tools.py` lines 75-92,
identical in `src/hr_assistant/tools.py`). -/

/-- The `LoginOutput` schema of `src/app/schemas.py`: `token` and `error` are
optional, `Json.null` standing for Python `None`. -/
structure LoginOutput where
  success : Bool
  token : Json
  error : Json
deriving Repr

def authenticate_user (username password : String) (w : Wire) : LoginOutput :=
  let result := a2a_call "login" w
  match result with
  | .obj kvs =>
      if (lookupJ kvs "error").isSome then
        -- `isinstance(result, dict)` but `"error" in result`: A2A failure dict
        { success := false, token := .null,
          error := getJD kvs "error" (Json.str "Failed to call authentication service") }
      else if getJD kvs "success" .null == Json.bool true && (lookupJ kvs "token").isSome then
        { success := true, token := getJD kvs "token" .null, error := .null }
      else
        { success := false, token := .null,
          error := getJD kvs "error" (Json.str "Authentication failed (no specific error provided)") }
  | _ =>
      { success := false, token := .null,
        error := Json.str "Unexpected response from auth service" }

/-! ## Capability adapter: `find_candidates` (`src/app/tools.py` lines 102-123,
identical in `src/hr_assistant/tools.py`), with the `CandidateSchema`
validation of `src/app/schemas.py` lines 30-36. -/

structure Candidate where
  id : String
  name : String
  title : String
  skills : List String
  experience : String
deriving Repr, DecidableEq

/-- Pydantic v2 validation of a `str` field: accepts exactly strings. -/
def asStr : Json → Option String
  | .str s => some s
  | _ => none

/-- Pydantic v2 validation of a `List[str]` field. -/
def asStrList : Json → Option (List String)
  | .arr xs => xs.mapM asStr
  | _ => none

/-- Validation `CandidateSchema.model_validate(c).model_dump()`: requires the five fields
with the right shapes; extra keys are ignored (pydantic default). -/
def CandidateSchema.model_validate (j : Json) : Option Candidate :=
  match j with
  | .obj kvs => do
      let id ← (lookupJ kvs "id").bind asStr
      let name ← (lookupJ kvs "name").bind asStr
      let title ← (lookupJ kvs "title").bind asStr
      let skills ← (lookupJ kvs "skills").bind asStrList
      let experience ← (lookupJ kvs "experience").bind asStr
      pure ⟨id, name, title, skills, experience⟩
  | _ => none

/-- The list comprehension
`[CandidateSchema.model_validate(c).model_dump() for c in result if isinstance(c, dict)]`
over the already-filtered dicts: the first validation failure raises, aborting
the whole comprehension (`none`). -/
def validateAll : List Json → Option (List Candidate)
  | [] => some []
  | c :: cs =>
      match CandidateSchema.model_validate c with
      | none => none
      | some v =>
          match validateAll cs with
          | none => none
          | some vs => some (v :: vs)

/-- The `SearchOutput` schema: `error` is `Json.null` for Python `None`. -/
structure SearchOutput where
  candidates : List Candidate
  error : Json
deriving Repr

def find_candidates (title skills : String) (w : Wire) : SearchOutput :=
  let result := a2a_call "search_candidates" w
  match result with
  | .arr xs =>
      match validateAll (xs.filter Json.isObjB) with
      | some cs => { candidates := cs, error := .null }
      | none => { candidates := [], error := Json.str "Invalid candidate data received" }
  | .obj kvs =>
      if (lookupJ kvs "error").isSome then
        { candidates := [],
          error := getJD kvs "error" (Json.str "Failed to call search service (no specific error provided)") }
      else
        { candidates := [], error := Json.str "Invalid or unexpected response from search service" }
  | _ =>
      { candidates := [], error := Json.str "Invalid or unexpected response from search service" }

/-! ## Capability adapter: `store_candidate` (`src/app/tools.py` lines 133-152,
identical in `src/hr_assistant/tools.py`). -/

/-- The `SaveCandidateOutput` schema: `name`/`error` are optional
(`Json.null` for Python `None`). -/
structure SaveOutcome where
  status : String
  name : Json
  error : Json
deriving Repr

def store_candidate (name title : String) (skills : List String) (w : Wire) : SaveOutcome :=
  let result := a2a_call "create_record" w
  match result with
  | .obj kvs =>
      if (lookupJ kvs "error").isSome then
        -- `isinstance(result, dict)` but `"error" in result`: A2A failure dict
        { status := "error", name := Json.str name,
          error := getJD kvs "error" (Json.str "Failed to call database service") }
      else if getJD kvs "status" .null == Json.str "saved" then
        { status := "saved", name := getJD kvs "name" .null, error := .null }
      else
        { status := "error", name := Json.str name,
          error := getJD kvs "error" (Json.str "Save operation failed (no specific error provided)") }
  | _ =>
      { status := "error", name := Json.str name,
        error := Json.str "Unexpected response from db service" }

/-! ## The `main.py` tool variants (lines 102-202), which resolve their
endpoint through `resolve_url` first and catch every exception.  A run of one
tool is modelled against the wire behaviour of the registry call and of the
service call; the second component of each result is the trace of JSON-RPC
methods for which a request was issued, in order. -/

/-- The body of `resolve_url` (`src/main.py` lines 37-47) on its first
execution: one `get_agent` registry RPC, then
`if not card or "url" not in card: raise RuntimeError(...)`, else `card["url"]`.
Every raised exception is `Except.error`. -/
def resolve_url_body (registryW : Wire) : Except String Json :=
  match make_rpc_call "get_agent" registryW with
  | .error e => .error e.toMessage
  | .ok card =>
      if !card.truthy then .error "Registry has no URL for agent"
      else
        match pyContains card "url" with
        | .error e => .error e
        | .ok false => .error "Registry has no URL for agent"
        | .ok true =>
            match pyIndex card "url" with
            | .error e => .error e
            | .ok u => .ok u

def login_user (username password : String) (registryW loginW : Wire) :
    Json × List String :=
  match resolve_url_body registryW with
  | .error e =>
      (Json.obj [("success", Json.bool false), ("error", Json.str ("Login failed: " ++ e))],
       ["get_agent"])
  | .ok _url =>
      match make_rpc_call "login" loginW with
      | .error e =>
          (Json.obj [("success", Json.bool false),
                     ("error", Json.str ("Login failed: " ++ e.toMessage))],
           ["get_agent", "login"])
      | .ok result => (result, ["get_agent", "login"])

def search_job_candidates (job_title skills : String) (registryW searchW : Wire) :
    List Json :=
  match resolve_url_body registryW with
  | .error _ => []
  | .ok _url =>
      match make_rpc_call "search_candidates" searchW with
      | .error _ => []
      | .ok (.arr xs) => xs
      | .ok _ => []

/-- The `result.setdefault("status", ...)` logic of `save_candidate_record`
(`src/main.py` lines 192-196): appends the key only when absent,
and only touches dicts. -/
def save_setdefault (result : Json) : Json :=
  match result with
  | .obj kvs =>
      if (lookupJ kvs "error").isSome then
        if (lookupJ kvs "status").isSome then .obj kvs
        else .obj (kvs ++ [("status", Json.str "failed")])
      else
        if (lookupJ kvs "status").isSome then .obj kvs
        else .obj (kvs ++ [("status", Json.str "saved")])
  | _ => result

def save_candidate_record (name title : String) (skills : Json)
    (registryW saveW : Wire) : Json × List String :=
  -- `if not name or not title or not skills:` (validation precedes every RPC)
  if name.isEmpty || title.isEmpty || !skills.truthy then
    (Json.obj [("status", Json.str "failed"),
               ("error", Json.str "Missing required candidate information (name, title, skills list).")],
     [])
  else if !skills.isArrB then
    (Json.obj [("status", Json.str "failed"),
               ("error", Json.str "Skills must be provided as a list.")],
     [])
  else
    match resolve_url_body registryW with
    | .error e =>
        (Json.obj [("status", Json.str "failed"),
                   ("error", Json.str ("Save operation failed: " ++ e))],
         ["get_agent"])
    | .ok _url =>
        match make_rpc_call "create_record" saveW with
        | .error e =>
            (Json.obj [("status", Json.str "failed"),
                       ("error", Json.str ("Save operation failed: " ++ e.toMessage))],
             ["get_agent", "create_record"])
        | .ok result => (save_setdefault result, ["get_agent", "create_record"])

/-! ## The `hr_recruiting_assistant/tools.py` variants (lines 13-44):
`_json_rpc` raises on every failure and the tools re-raise on domain
failures. -/

/-- The helper `_json_rpc` (`src/hr_recruiting_assistant/tools.py` lines 13-20):
`raise_for_status`, `RuntimeError` on an `error` envelope, otherwise
`data.get("result")`.  No exception is caught. -/
def hrr_json_rpc (w : Wire) : Except String Json :=
  match w with
  | .fail (.httpStatus code _) => .error ("HTTPError " ++ toString code)
  | .fail .timeout => .error "requests.exceptions.Timeout"
  | .fail (.netError m) => .error ("ConnectionError: " ++ m)
  | .fail (.badJson m) => .error ("JSONDecodeError: " ++ m)
  | .ok data =>
      match pyContains data "error" with
      | .error e => .error e
      | .ok true => .error "returned error"
      | .ok false =>
          match data with
          | .obj kvs => .ok (getJD kvs "result" .null)
          | _ => .error "AttributeError: get"

/-- The tool `save_candidate_record` (`src/hr_recruiting_assistant/tools.py` lines
38-44): `raise RuntimeError(out.get("error", "save failed"))` whenever the
status is not `"saved"`; the RuntimeError argument (an arbitrary value) is the
`Except.error` payload, transport errors wrapped as strings. -/
def hrr_save_candidate_record (name title : String) (skills : List String)
    (w : Wire) : Except Json String :=
  match hrr_json_rpc w with
  | .error e => .error (Json.str e)
  | .ok out =>
      match out with
      | .obj kvs =>
          if !(getJD kvs "status" .null == Json.str "saved") then
            .error (getJD kvs "error" (Json.str "save failed"))
          else .ok ("Candidate " ++ name ++ " saved.")
      | _ => .error (Json.str "AttributeError: get")

/-! ## `login_user` of `src/hr_assistant/agent.py` (lines 113-131): no
`try` around `make_rpc_call`, so every RPC failure propagates to the caller;
`result["token"]` raises `KeyError` when `success` is truthy without a token. -/

def hra_login_user (username password : String) (w : Wire) : Except String Json :=
  match make_rpc_call "login" w with
  | .error e => .error e.toMessage
  | .ok result =>
      match result with
      | .obj kvs =>
          if (getJD kvs "success" .null).truthy then
            match lookupJ kvs "token" with
            | some t => .ok (Json.obj [("status", Json.str "success"), ("token", t)])
            | none => .error "KeyError: token"
          else
            .ok (Json.obj [("status", Json.str "error"),
                           ("message", getJD kvs "error" (Json.str "Login failed"))])
      | _ => .error "AttributeError: get"

/-! ## The endpoint resolver cache (`@lru_cache` on the coroutine function
`resolve_url`, `src/main.py` lines 37-47 and `src/hr_assistant/agent.py`
lines 97-107).  `functools.lru_cache` memoises the value the decorated
function RETURNS — for an `async def` that value is the coroutine object,
created lazily and runnable exactly once.  The process state tracks the cache,
the allocated coroutine objects, and how many registry RPCs were issued. -/

inductive CoroStatus where
  | fresh
  | consumed
deriving Repr, DecidableEq

structure ResolverProc where
  cache : List (String × Nat)
  coros : List (String × CoroStatus)
  registryCalls : Nat
deriving Repr

def ResolverProc.init : ResolverProc := ⟨[], [], 0⟩

/-- Calling `resolve_url(name)`: on a cache miss a new coroutine object is
created and cached under `name`; on a hit the same coroutine object is handed
out again.  No body code runs yet. -/
def resolve_url_call (name : String) (s : ResolverProc) : Nat × ResolverProc :=
  match s.cache.lookup name with
  | some cid => (cid, s)
  | none =>
      let cid := s.coros.length
      (cid, { s with cache := s.cache ++ [(name, cid)],
                     coros := s.coros ++ [(name, .fresh)] })

/-- Awaiting the coroutine object `cid`: a fresh coroutine runs the body of
`resolve_url` (issuing the registry RPC); an already-awaited coroutine raises
`RuntimeError("cannot reuse already awaited coroutine")` without any RPC. -/
def await_resolve (registry : String → Wire) (cid : Nat) (s : ResolverProc) :
    Except String Json × ResolverProc :=
  match s.coros.get? cid with
  | none => (.error "invalid coroutine", s)
  | some (_, .consumed) => (.error "cannot reuse already awaited coroutine", s)
  | some (name, .fresh) =>
      (resolve_url_body (registry name),
       { s with coros := s.coros.set cid (name, .consumed),
                registryCalls := s.registryCalls + 1 })

/-- Two back-to-back `await resolve_url(name)` in one process: the pair of
observed results and the total number of registry RPCs issued. -/
def resolveTwice (registry : String → Wire) (name : String) :
    Except String Json × Except String Json × Nat :=
  let p1 := resolve_url_call name ResolverProc.init
  let q1 := await_resolve registry p1.1 p1.2
  let p2 := resolve_url_call name q1.2
  let q2 := await_resolve registry p2.1 p2.2
  (q1.1, q2.1, q2.2.registryCalls)

def goodRegistry : String → Wire := fun _ =>
  .ok (Json.obj [("result", Json.obj [("url", Json.str "http://auth_agent:8000/a2a")])])

/-! ## The INFO log line of `make_rpc_call` (`src/main.py` line 65):
`f"Making RPC call to ... - Method: ..., Params: ..."` interpolates the full
params dict, rendered with Python `repr`. -/

mutual

/-- Python `repr`/f-string rendering of a JSON-shaped value. -/
def pyRepr : Json → String
  | .null => "None"
  | .bool true => "True"
  | .bool false => "False"
  | .num n => toString n
  | .str s => "\x27" ++ s ++ "\x27"
  | .arr xs => "[" ++ pyReprArr xs ++ "]"
  | .obj kvs => "\x7b" ++ pyReprObj kvs ++ "\x7d"

def pyReprArr : List Json → String
  | [] => ""
  | [x] => pyRepr x
  | x :: xs => pyRepr x ++ ", " ++ pyReprArr xs

def pyReprObj : List (String × Json) → String
  | [] => ""
  | [(k, v)] => "\x27" ++ k ++ "\x27: " ++ pyRepr v
  | (k, v) :: kvs => "\x27" ++ k ++ "\x27: " ++ pyRepr v ++ ", " ++ pyReprObj kvs

end

def make_rpc_call_log (agent_url method : String) (params : List (String × Json)) : String :=
  "Making RPC call to " ++ agent_url ++ " - Method: " ++ method ++ ", Params: "
    ++ pyRepr (Json.obj params)

/-- The log line emitted when `login_user` reaches `make_rpc_call`
(`src/main.py` lines 113-118 build `params` from the raw credentials). -/
def login_rpc_log (username password : String) : String :=
  make_rpc_call_log "http://auth_agent:8000/a2a" "login"
    [("username", Json.str username), ("password", Json.str password)]

/-! ## Workflow saving loop.  Modelled from the spec: the Workflow
Orchestrator of spec section 4.4 is not deterministic code in the repository —
the per-item loop is performed by the LLM agent following
`AGENT_UI_INSTRUCTIONS` (`src/app/agent.py`), and the draft `run_hr_workflow`
is commented out; only the `RecruitingWorkflowOutput` declaration
(`src/app/schemas.py` lines 55-59) carries the counts.  The loop below follows
the spec text: for each found candidate, in order, invoke `saveCandidate`,
accumulate one outcome per candidate, and keep `savedCount` as the running
count of `Saved` outcomes. -/

structure SpecSaveOutcome where
  candidateRef : String
  saved : Bool
  errorDetail : Option String
deriving Repr, DecidableEq

structure WorkflowResult where
  foundCount : Nat
  savedCount : Nat
  outcomes : List SpecSaveOutcome
deriving Repr

/-- Modelled from the spec: section 4.4, transition 4 — one `saveCandidate`
call per candidate, in order, `savedCount` incremented on each `Saved`. -/
def savingLoop (saveOne : Candidate → SpecSaveOutcome) :
    List Candidate → WorkflowResult → WorkflowResult
  | [], acc => acc
  | c :: cs, acc =>
      let o := saveOne c
      savingLoop saveOne cs
        { acc with savedCount := acc.savedCount + (if o.saved then 1 else 0),
                   outcomes := acc.outcomes ++ [o] }

/-- Modelled from the spec: entering `Saving` from `CandidatesFound` with
`foundCount` set to the number of found candidates (section 4.4,
transitions 3-5). -/
def runSaving (saveOne : Candidate → SpecSaveOutcome) (found : List Candidate) :
    WorkflowResult :=
  savingLoop saveOne found { foundCount := found.length, savedCount := 0, outcomes := [] }

/-! ## Shape predicates used by the classification theorems. -/

/-- The envelope shape on which `make_rpc_call` succeeds: a dict with a
`result` key and no `error` key. -/
def rpcSuccessShapeB (w : Wire) : Bool :=
  match w with
  | .ok (.obj kvs) => (lookupJ kvs "result").isSome && !(lookupJ kvs "error").isSome
  | _ => false

/-- The wire shape on which `store_candidate` reports `"saved"`: a well-formed
success envelope whose result payload is a dict without an `error` key and with
`status == "saved"`. -/
def saveSuccessShapeB (w : Wire) : Bool :=
  match w with
  | .ok (.obj env) =>
      match lookupJ env "error", lookupJ env "result" with
      | none, some (.obj r) =>
          !(lookupJ r "error").isSome && (getJD r "status" .null == Json.str "saved")
      | _, _ => false
  | _ => false

/-- The wire shape on which `authenticate_user` reports success: a well-formed
success envelope whose result payload is a dict without an `error` key, with
`success` equal to (Python) `True` and a `token` key. -/
def authSuccessShapeB (w : Wire) : Bool :=
  match w with
  | .ok (.obj env) =>
      match lookupJ env "error", lookupJ env "result" with
      | none, some (.obj r) =>
          !(lookupJ r "error").isSome && (getJD r "success" .null == Json.bool true)
            && (lookupJ r "token").isSome
      | _, _ => false
  | _ => false

/-- The token the remote auth service supplied, when the wire has the
success shape. -/
def authTokenOf (w : Wire) : Option Json :=
  match w with
  | .ok (.obj env) =>
      match lookupJ env "error", lookupJ env "result" with
      | none, some (.obj r) =>
          if !(lookupJ r "error").isSome && (getJD r "success" .null == Json.bool true) then
            lookupJ r "token"
          else none
      | _, _ => none
  | _ => none

/-! # Theorems -/

theorem make_rpc_call_eq_ok_iff (m : String) (w : Wire) (r : Json) :
    make_rpc_call m w = .ok r ↔
      ∃ kvs, w = .ok (.obj kvs) ∧ lookupJ kvs "error" = none ∧ lookupJ kvs "result" = some r := by
  cases w with
  | fail k => cases k <;> simp [make_rpc_call]
  | ok data =>
    cases data with
    | null => simp [make_rpc_call, pyContains]
    | bool b => simp [make_rpc_call, pyContains]
    | num n => simp [make_rpc_call, pyContains]
    | str s =>
      cases hc : strContains s "error" <;>
        cases hr : strContains s "result" <;>
          simp [make_rpc_call, pyContains, pyIndex, hc, hr]
    | arr xs =>
      cases hc : xs.contains (Json.str "error") <;>
        cases hr : xs.contains (Json.str "result") <;>
          simp [make_rpc_call, pyContains, pyIndex, hc, hr]
    | obj kvs =>
      cases he : lookupJ kvs "error" with
      | some v => cases v <;> simp [make_rpc_call, pyContains, pyIndex, he]
      | none =>
        cases hr : lookupJ kvs "result" with
        | some r2 => simp [make_rpc_call, pyContains, pyIndex, he, hr]
        | none => simp [make_rpc_call, pyContains, pyIndex, he, hr]

theorem a2a_call_success (m : String) (env : List (String × Json)) (r : Json)
    (he : lookupJ env "error" = none) (hr : lookupJ env "result" = some r) :
    a2a_call m (.ok (.obj env)) = r := by
  simp [a2a_call, pyContains, pyIndex, he, hr]

theorem a2a_call_not_success (m : String) (w : Wire) (h : rpcSuccessShapeB w = false) :
    ∃ kvs, a2a_call m w = .obj kvs ∧ (lookupJ kvs "error").isSome := by
  cases w with
  | fail k => cases k <;> exact ⟨_, rfl, by simp [lookupJ]⟩
  | ok data =>
    cases data with
    | null => exact ⟨_, rfl, by simp [lookupJ]⟩
    | bool b => exact ⟨_, rfl, by simp [lookupJ]⟩
    | num n => exact ⟨_, rfl, by simp [lookupJ]⟩
    | str s =>
      cases hc : strContains s "error" <;>
        cases hr : strContains s "result" <;>
          (simp only [a2a_call, pyContains, pyIndex, hc, hr];
           exact ⟨_, rfl, by simp [lookupJ]⟩)
    | arr xs =>
      cases hc : xs.contains (Json.str "error") <;>
        cases hr : xs.contains (Json.str "result") <;>
          (simp only [a2a_call, pyContains, pyIndex, hc, hr];
           exact ⟨_, rfl, by simp [lookupJ]⟩)
    | obj kvs =>
      cases he : lookupJ kvs "error" with
      | some v =>
        cases v <;>
          (simp only [a2a_call, pyContains, pyIndex, he];
           exact ⟨_, rfl, by simp [lookupJ]⟩)
      | none =>
        cases hr : lookupJ kvs "result" with
        | some r2 =>
          exfalso
          simp [rpcSuccessShapeB, he, hr] at h
        | none =>
          simp only [a2a_call, pyContains, pyIndex, he, hr]
          exact ⟨_, rfl, by simp [lookupJ]⟩

/-- C4: for every RPC response envelope, `make_rpc_call` classifies the call as
a success — returning the `result` payload — exactly when the envelope is a
dict containing `result` and no `error`; every other shape (an `error`
envelope, an envelope missing both keys, malformed JSON, a non-2xx transport
status, a non-dict body) is a failure, and the `a2a_call` invoker likewise
returns an `error`-carrying dict on every non-success shape. -/
theorem C4_invoker_success_iff_result_no_error (method : String) (w : Wire) (r : Json) :
    (make_rpc_call method w = .ok r ↔
      ∃ kvs, w = .ok (.obj kvs) ∧ lookupJ kvs "error" = none ∧ lookupJ kvs "result" = some r)
    ∧ (rpcSuccessShapeB w = true ∨ (a2a_call method w).hasKeyB "error" = true) := by
  constructor
  · exact make_rpc_call_eq_ok_iff method w r
  · by_cases h : rpcSuccessShapeB w = true
    · exact Or.inl h
    · refine Or.inr ?_
      obtain ⟨kvs, heq, hsome⟩ :=
        a2a_call_not_success method w (by simpa using h)
      simp [heq, Json.hasKeyB, hsome]

theorem rpcSuccessShape_inv (w : Wire) (h : rpcSuccessShapeB w = true) :
    ∃ env r, w = .ok (.obj env) ∧ lookupJ env "error" = none ∧ lookupJ env "result" = some r := by
  cases w with
  | fail k => simp [rpcSuccessShapeB] at h
  | ok data =>
    cases data with
    | obj kvs =>
      simp only [rpcSuccessShapeB, Bool.and_eq_true] at h
      obtain ⟨h1, h2⟩ := h
      obtain ⟨r, hr⟩ := Option.isSome_iff_exists.mp h1
      refine ⟨kvs, r, rfl, ?_, hr⟩
      cases hE : lookupJ kvs "error" with
      | none => rfl
      | some v => rw [hE] at h2; simp at h2
    | null => simp [rpcSuccessShapeB] at h
    | bool b => simp [rpcSuccessShapeB] at h
    | num n => simp [rpcSuccessShapeB] at h
    | str s => simp [rpcSuccessShapeB] at h
    | arr xs => simp [rpcSuccessShapeB] at h

theorem saveSuccess_imp_rpcSuccess (w : Wire) (h : saveSuccessShapeB w = true) :
    rpcSuccessShapeB w = true := by
  cases w with
  | fail k => simp [saveSuccessShapeB] at h
  | ok data =>
    cases data with
    | obj kvs =>
      cases he : lookupJ kvs "error" with
      | some v => simp [saveSuccessShapeB, he] at h
      | none =>
        cases hr : lookupJ kvs "result" with
        | none => simp [saveSuccessShapeB, he, hr] at h
        | some r => simp [rpcSuccessShapeB, he, hr]
    | null => simp [saveSuccessShapeB] at h
    | bool b => simp [saveSuccessShapeB] at h
    | num n => simp [saveSuccessShapeB] at h
    | str s => simp [saveSuccessShapeB] at h
    | arr xs => simp [saveSuccessShapeB] at h

/-- C1 counterexample: the `save_candidate_record` tool of
`src/hr_recruiting_assistant/tools.py` DOES raise to its caller.  On the
well-formed remote response `{"result": {"status": "failed", "error": "db
full"}}` it raises `RuntimeError("db full")` (modelled as `Except.error`)
instead of returning a Failed save outcome. -/
theorem C1_hrr_save_raises :
    hrr_save_candidate_record "Alice" "Engineer" ["python"]
      (.ok (Json.obj [("result",
        Json.obj [("status", Json.str "failed"), ("error", Json.str "db full")])]))
      = .error (Json.str "db full") := rfl

/-- C1 amended: the `store_candidate` adapter of `src/app/tools.py` never
raises: for every remote response or transport/protocol failure it returns a
`SaveOutcome` whose status is `"saved"` exactly when the well-formed remote
result reports `status == "saved"` (a dict result without an `error` key), and
`"error"` in every other case, with RPC failures carrying a reason string. -/
theorem C1_store_candidate_total_classification
    (name title : String) (skills : List String) (w : Wire) :
    ((store_candidate name title skills w).status = "saved"
      ∨ (store_candidate name title skills w).status = "error")
    ∧ ((store_candidate name title skills w).status = "saved" ↔ saveSuccessShapeB w = true)
    ∧ (∀ k : FailKind, ∃ e,
        store_candidate name title skills (.fail k)
          = ⟨"error", Json.str name, Json.str e⟩) := by
  have key : ((store_candidate name title skills w).status = "saved" ↔ saveSuccessShapeB w = true)
      ∧ ((store_candidate name title skills w).status = "saved"
          ∨ (store_candidate name title skills w).status = "error") := by
    by_cases h : rpcSuccessShapeB w = true
    · obtain ⟨env, r, hw, he, hr⟩ := rpcSuccessShape_inv w h
      subst hw
      have ha : a2a_call "create_record" (.ok (.obj env)) = r := a2a_call_success _ env r he hr
      cases r with
      | obj rkvs =>
        cases hre : lookupJ rkvs "error" with
        | some v => simp [store_candidate, ha, hre, saveSuccessShapeB, he, hr]
        | none =>
          by_cases hs : (getJD rkvs "status" Json.null == Json.str "saved") = true
          · simp [store_candidate, ha, hre, hs, saveSuccessShapeB, he, hr]
          · simp only [Bool.not_eq_true] at hs
            simp [store_candidate, ha, hre, hs, saveSuccessShapeB, he, hr]
      | null => simp [store_candidate, ha, saveSuccessShapeB, he, hr]
      | bool b => simp [store_candidate, ha, saveSuccessShapeB, he, hr]
      | num n => simp [store_candidate, ha, saveSuccessShapeB, he, hr]
      | str s => simp [store_candidate, ha, saveSuccessShapeB, he, hr]
      | arr xs => simp [store_candidate, ha, saveSuccessShapeB, he, hr]
    · obtain ⟨kvs, heq, hsome⟩ := a2a_call_not_success "create_record" w (by simpa using h)
      have hshape : saveSuccessShapeB w = false := by
        cases hx : saveSuccessShapeB w with
        | false => rfl
        | true => exact absurd (saveSuccess_imp_rpcSuccess w hx) h
      simp [store_candidate, heq, hsome, hshape]
  refine ⟨key.2, key.1, ?_⟩
  intro k
  cases k <;> exact ⟨_, rfl⟩

theorem authSuccess_imp_rpcSuccess (w : Wire) (h : authSuccessShapeB w = true) :
    rpcSuccessShapeB w = true := by
  cases w with
  | fail k => simp [authSuccessShapeB] at h
  | ok data =>
    cases data with
    | obj kvs =>
      cases he : lookupJ kvs "error" with
      | some v => simp [authSuccessShapeB, he] at h
      | none =>
        cases hr : lookupJ kvs "result" with
        | none => simp [authSuccessShapeB, he, hr] at h
        | some r => simp [rpcSuccessShapeB, he, hr]
    | null => simp [authSuccessShapeB] at h
    | bool b => simp [authSuccessShapeB] at h
    | num n => simp [authSuccessShapeB] at h
    | str s => simp [authSuccessShapeB] at h
    | arr xs => simp [authSuccessShapeB] at h

/-- C3 counterexample: `login_user` of `src/hr_assistant/agent.py` does not
catch RPC failures: a timeout on the `login` call propagates to the caller as
an exception (`Except.error`) instead of an AuthFailure-shaped result. -/
theorem C3_hra_login_propagates_rpc_failure :
    hra_login_user "alice" "secret" (.fail .timeout) = .error "Timeout calling method" := rfl

/-- C3 amended: the `authenticate_user` adapter of `src/app/tools.py` returns
success exactly on a well-formed remote result with `success` identically
`True` and a `token` key (and then carries the remote token); in every other
case — including every RPC failure, which yields a reason string — it returns
an AuthFailure-shaped result with `success = false` and a null token. -/
theorem C3_authenticate_user_classification (username password : String) (w : Wire) :
    ((authenticate_user username password w).success = true ↔ authSuccessShapeB w = true)
    ∧ ((authenticate_user username password w).success = true
        ∨ (authenticate_user username password w).token = Json.null)
    ∧ ((authenticate_user username password w).success = false
        ∨ some (authenticate_user username password w).token = authTokenOf w)
    ∧ (∀ k : FailKind, ∃ e,
        authenticate_user username password (.fail k) = ⟨false, Json.null, Json.str e⟩) := by
  have key : ((authenticate_user username password w).success = true ↔ authSuccessShapeB w = true)
      ∧ ((authenticate_user username password w).success = true
          ∨ (authenticate_user username password w).token = Json.null)
      ∧ ((authenticate_user username password w).success = false
          ∨ some (authenticate_user username password w).token = authTokenOf w) := by
    by_cases h : rpcSuccessShapeB w = true
    · obtain ⟨env, r, hw, he, hr⟩ := rpcSuccessShape_inv w h
      subst hw
      have ha : a2a_call "login" (.ok (.obj env)) = r := a2a_call_success _ env r he hr
      cases r with
      | obj rkvs =>
        cases hre : lookupJ rkvs "error" with
        | some v =>
          simp [authenticate_user, ha, hre, authSuccessShapeB, authTokenOf, he, hr]
        | none =>
          by_cases hc : (getJD rkvs "success" Json.null == Json.bool true
                          && (lookupJ rkvs "token").isSome) = true
          · have hc2 := hc
            simp only [Bool.and_eq_true] at hc2
            obtain ⟨hb, ht⟩ := hc2
            obtain ⟨t, ht'⟩ := Option.isSome_iff_exists.mp ht
            simp only [getJD] at hb
            simp [authenticate_user, ha, hre, hc, authSuccessShapeB, authTokenOf,
                  he, hr, hb, ht, ht', getJD]
          · have hc2 : (getJD rkvs "success" Json.null == Json.bool true
                          && (lookupJ rkvs "token").isSome) = false := by
              cases hx : (getJD rkvs "success" Json.null == Json.bool true
                          && (lookupJ rkvs "token").isSome) with
              | false => rfl
              | true => exact absurd hx hc
            simp [authenticate_user, ha, hre, hc2, authSuccessShapeB, authTokenOf, he, hr]
      | null => simp [authenticate_user, ha, authSuccessShapeB, authTokenOf, he, hr]
      | bool b => simp [authenticate_user, ha, authSuccessShapeB, authTokenOf, he, hr]
      | num n => simp [authenticate_user, ha, authSuccessShapeB, authTokenOf, he, hr]
      | str s => simp [authenticate_user, ha, authSuccessShapeB, authTokenOf, he, hr]
      | arr xs => simp [authenticate_user, ha, authSuccessShapeB, authTokenOf, he, hr]
    · obtain ⟨kvs, heq, hsome⟩ := a2a_call_not_success "login" w (by simpa using h)
      have hshape : authSuccessShapeB w = false := by
        cases hx : authSuccessShapeB w with
        | false => rfl
        | true => exact absurd (authSuccess_imp_rpcSuccess w hx) h
      simp [authenticate_user, heq, hsome, hshape]
  refine ⟨key.1, key.2.1, key.2.2, ?_⟩
  intro k
  cases k <;> exact ⟨_, rfl⟩

/-- C2 counterexample: for the caller `search_job_candidates` of
`src/main.py`, a successful zero-result search and an RPC failure are NOT
distinguishable — both return the bare empty list, because the `except` branch
maps every failure to `[]`. -/
theorem C2_search_main_empty_indistinguishable :
    search_job_candidates "Engineer" "Go,Rust" (goodRegistry "webservice_agent")
        (.ok (Json.obj [("result", Json.arr [])]))
      = search_job_candidates "Engineer" "Go,Rust" (goodRegistry "webservice_agent")
        (.fail .timeout)
    ∧ search_job_candidates "Engineer" "Go,Rust" (goodRegistry "webservice_agent")
        (.ok (Json.obj [("result", Json.arr [])]))
      = [] := ⟨rfl, rfl⟩

/-- C2 amended: in the `find_candidates` adapter of `src/app/tools.py`, an
empty remote result sequence is a successful zero-result search
(`candidates = []`, `error = None`), and every transport/protocol failure is
distinguishable from it by a non-null error string. -/
theorem C2_find_candidates_empty_is_success (title skills : String) :
    find_candidates title skills (.ok (Json.obj [("result", Json.arr [])]))
      = ⟨[], Json.null⟩
    ∧ (∀ k : FailKind, ∃ e, find_candidates title skills (.fail k) = ⟨[], Json.str e⟩) := by
  refine ⟨rfl, ?_⟩
  intro k
  cases k <;> exact ⟨_, rfl⟩

/-- C6: `resolve_url` is `functools.lru_cache` applied to an `async def`, so
the cache memoises the coroutine object, not the resolved address.  The first
`await resolve_url("auth_agent")` resolves and issues one registry RPC; the
second call gets the same, already-awaited coroutine back and awaiting it
raises `RuntimeError("cannot reuse already awaited coroutine")` instead of
returning the cached address (no second registry call is made either way). -/
theorem C6_second_resolve_await_raises :
    resolveTwice goodRegistry "auth_agent"
      = (.ok (Json.str "http://auth_agent:8000/a2a"),
         .error "cannot reuse already awaited coroutine", 1) := rfl

/-- C7: whenever endpoint resolution for the authentication service fails
(registry RPC failure or a card without a `url`), `login_user` of
`src/main.py` terminates with a resolution failure result and no request with
method `login` is ever issued. -/
theorem C7_no_login_rpc_on_resolution_failure (username password : String)
    (registryW loginW : Wire) (h : isOkE (resolve_url_body registryW) = false) :
    "login" ∉ (login_user username password registryW loginW).2
    ∧ ∃ e, (login_user username password registryW loginW).1
        = Json.obj [("success", Json.bool false),
                    ("error", Json.str ("Login failed: " ++ e))] := by
  cases hres : resolve_url_body registryW with
  | error e =>
      refine ⟨?_, e, ?_⟩
      · simp [login_user, hres]
      · simp [login_user, hres]
  | ok u => rw [hres] at h; simp [isOkE] at h

theorem C7_no_login_rpc_on_resolution_failure_witness :
    isOkE (resolve_url_body (.fail .timeout)) = false
    ∧ ("login" ∉ (login_user "alice" "secret" (.fail .timeout) (.fail .timeout)).2
       ∧ ∃ e, (login_user "alice" "secret" (.fail .timeout) (.fail .timeout)).1
           = Json.obj [("success", Json.bool false),
                       ("error", Json.str ("Login failed: " ++ e))]) :=
  ⟨rfl, C7_no_login_rpc_on_resolution_failure "alice" "secret"
          (.fail .timeout) (.fail .timeout) rfl⟩

/-- C8: the INFO log line at the top of `make_rpc_call` (`src/main.py` line
65) interpolates the full params dict, so for the `login` method the password
value appears verbatim in the log, and two runs differing only in the password
produce different log output — contradicting the write-only password claim. -/
theorem C8_password_appears_in_rpc_log :
    (∃ pre suf, login_rpc_log "alice" "hunter2" = pre ++ "hunter2" ++ suf)
    ∧ login_rpc_log "alice" "hunter2" ≠ login_rpc_log "alice" "hunter3" := by
  constructor
  · exact ⟨"Making RPC call to http://auth_agent:8000/a2a - Method: login, Params: \x7b\x27username\x27: \x27alice\x27, \x27password\x27: \x27",
           "\x27\x7d", by decide⟩
  · decide

theorem savingLoop_spec (saveOne : Candidate → SpecSaveOutcome)
    (cs : List Candidate) (acc : WorkflowResult) :
    (savingLoop saveOne cs acc).outcomes = acc.outcomes ++ cs.map saveOne
    ∧ (savingLoop saveOne cs acc).savedCount
        = acc.savedCount + ((cs.map saveOne).filter (fun o => o.saved)).length
    ∧ (savingLoop saveOne cs acc).foundCount = acc.foundCount := by
  induction cs generalizing acc with
  | nil => simp [savingLoop]
  | cons c cs ih =>
    obtain ⟨h1, h2, h3⟩ := ih { acc with
      savedCount := acc.savedCount + (if (saveOne c).saved then 1 else 0),
      outcomes := acc.outcomes ++ [saveOne c] }
    refine ⟨?_, ?_, ?_⟩
    · rw [savingLoop, h1]; simp
    · rw [savingLoop, h2]
      by_cases hs : (saveOne c).saved
      · simp [hs, List.filter_cons]; omega
      · simp only [Bool.not_eq_true] at hs
        simp [hs, List.filter_cons]
    · rw [savingLoop, h3]

/-- C5: in the workflow saving state (modelled from spec section 4.4, as the
orchestrator is carried out by the LLM agent and has no deterministic code in
the repository), the final result satisfies `savedCount` = number of outcomes
with status `Saved`, `savedCount <= foundCount`, and the outcomes sequence has
exactly `foundCount` elements. -/
theorem C5_saving_invariant (saveOne : Candidate → SpecSaveOutcome) (found : List Candidate) :
    (runSaving saveOne found).savedCount
        = ((runSaving saveOne found).outcomes.filter (fun o => o.saved)).length
    ∧ (runSaving saveOne found).savedCount ≤ (runSaving saveOne found).foundCount
    ∧ (runSaving saveOne found).outcomes.length = (runSaving saveOne found).foundCount := by
  obtain ⟨h1, h2, h3⟩ := savingLoop_spec saveOne found ⟨found.length, 0, []⟩
  rw [runSaving] at *
  refine ⟨?_, ?_, ?_⟩
  · rw [h1, h2]; simp
  · rw [h2, h3]
    calc 0 + ((found.map saveOne).filter (fun o => o.saved)).length
        ≤ (found.map saveOne).length := by
          simpa using List.length_filter_le (fun o => o.saved) (found.map saveOne)
      _ = found.length := List.length_map _ _
  · rw [h1, h3]; simp

theorem validateAll_some_length (l : List Json) (r : List Candidate)
    (h : validateAll l = some r) : r.length = l.length := by
  induction l generalizing r with
  | nil =>
    simp [validateAll] at h
    simp [← h]
  | cons c cs ih =>
    simp only [validateAll] at h
    cases hv : CandidateSchema.model_validate c with
    | none => rw [hv] at h; simp at h
    | some v =>
      rw [hv] at h
      cases hr : validateAll cs with
      | none => rw [hr] at h; simp at h
      | some vs =>
        rw [hr] at h
        simp only [Option.some.injEq] at h
        subst h
        simp [ih vs hr]

theorem validateAll_mem (l : List Json) (r : List Candidate)
    (h : validateAll l = some r) :
    ∀ v ∈ r, ∃ j ∈ l, CandidateSchema.model_validate j = some v := by
  induction l generalizing r with
  | nil =>
    simp [validateAll] at h
    subst h
    simp
  | cons c cs ih =>
    simp only [validateAll] at h
    cases hv : CandidateSchema.model_validate c with
    | none => rw [hv] at h; simp at h
    | some v =>
      rw [hv] at h
      cases hr : validateAll cs with
      | none => rw [hr] at h; simp at h
      | some vs =>
        rw [hr] at h
        simp only [Option.some.injEq] at h
        subst h
        intro x hx
        rcases List.mem_cons.mp hx with hx | hx
        · exact ⟨c, List.mem_cons_self c cs, hx ▸ hv⟩
        · obtain ⟨j, hj, hjv⟩ := ih vs hr x hx
          exact ⟨j, List.mem_cons_of_mem c hj, hjv⟩

/-- C9: `find_candidates` silently drops non-dict elements of the remote
response list before schema validation, so when every dict element validates
the returned candidate list has exactly one entry per dict element — possibly
strictly fewer than the remote sequence — with no error reported, and every
returned element was produced by `CandidateSchema` validation. -/
theorem C9_find_candidates_drops_non_dicts (title skills : String)
    (xs : List Json) (cs : List Candidate)
    (h : validateAll (xs.filter Json.isObjB) = some cs) :
    find_candidates title skills (.ok (Json.obj [("result", Json.arr xs)]))
      = ⟨cs, Json.null⟩
    ∧ cs.length = (xs.filter Json.isObjB).length
    ∧ cs.length ≤ xs.length
    ∧ ∀ c ∈ cs, ∃ j ∈ xs, Json.isObjB j = true
        ∧ CandidateSchema.model_validate j = some c := by
  have ha : a2a_call "search_candidates" (.ok (.obj [("result", .arr xs)])) = .arr xs :=
    a2a_call_success _ _ _ (by simp [lookupJ]) (by simp [lookupJ])
  refine ⟨?_, ?_, ?_, ?_⟩
  · simp [find_candidates, ha, h]
  · exact validateAll_some_length _ _ h
  · rw [validateAll_some_length _ _ h]
    exact List.length_filter_le _ xs
  · intro c hc
    obtain ⟨j, hj, hv⟩ := validateAll_mem _ _ h c hc
    exact ⟨j, (List.mem_filter.mp hj).1, (List.mem_filter.mp hj).2, hv⟩

theorem C9_find_candidates_drops_non_dicts_witness :
    validateAll (([Json.obj [("id", Json.str "1"), ("name", Json.str "Ann"),
                             ("title", Json.str "Dev"),
                             ("skills", Json.arr [Json.str "py"]),
                             ("experience", Json.str "5y")],
                   Json.str "junk"]).filter Json.isObjB)
      = some [⟨"1", "Ann", "Dev", ["py"], "5y"⟩]
    ∧ (find_candidates "Dev" "py"
        (.ok (Json.obj [("result", Json.arr
          [Json.obj [("id", Json.str "1"), ("name", Json.str "Ann"),
                     ("title", Json.str "Dev"),
                     ("skills", Json.arr [Json.str "py"]),
                     ("experience", Json.str "5y")],
           Json.str "junk"])]))
        = ⟨[⟨"1", "Ann", "Dev", ["py"], "5y"⟩], Json.null⟩
      ∧ ([⟨"1", "Ann", "Dev", ["py"], "5y"⟩] : List Candidate).length
          = (([Json.obj [("id", Json.str "1"), ("name", Json.str "Ann"),
                         ("title", Json.str "Dev"),
                         ("skills", Json.arr [Json.str "py"]),
                         ("experience", Json.str "5y")],
               Json.str "junk"]).filter Json.isObjB).length
      ∧ ([⟨"1", "Ann", "Dev", ["py"], "5y"⟩] : List Candidate).length
          ≤ ([Json.obj [("id", Json.str "1"), ("name", Json.str "Ann"),
                        ("title", Json.str "Dev"),
                        ("skills", Json.arr [Json.str "py"]),
                        ("experience", Json.str "5y")],
              Json.str "junk"]).length
      ∧ ∀ c ∈ ([⟨"1", "Ann", "Dev", ["py"], "5y"⟩] : List Candidate),
          ∃ j ∈ [Json.obj [("id", Json.str "1"), ("name", Json.str "Ann"),
                           ("title", Json.str "Dev"),
                           ("skills", Json.arr [Json.str "py"]),
                           ("experience", Json.str "5y")],
                 Json.str "junk"], Json.isObjB j = true
            ∧ CandidateSchema.model_validate j = some c) :=
  ⟨rfl, C9_find_candidates_drops_non_dicts "Dev" "py" _ _ rfl⟩

/-- C10: `save_candidate_record` of `src/main.py` validates its input before
any remote interaction: an empty name, empty title, falsy skills value, or a
non-list skills value yields a `{status: "failed"}` outcome with an error
reason and an empty RPC trace — in particular `create_record` is never
invoked. -/
theorem C10_save_validation_short_circuits (name title : String) (skills : Json)
    (registryW saveW : Wire)
    (h : name.isEmpty = true ∨ title.isEmpty = true
         ∨ skills.truthy = false ∨ skills.isArrB = false) :
    (save_candidate_record name title skills registryW saveW).2 = []
    ∧ ∃ e, (save_candidate_record name title skills registryW saveW).1
        = Json.obj [("status", Json.str "failed"), ("error", Json.str e)] := by
  by_cases h1 : (name.isEmpty || title.isEmpty || !skills.truthy) = true
  · refine ⟨?_, "Missing required candidate information (name, title, skills list).", ?_⟩
    · simp [save_candidate_record, h1]
    · simp [save_candidate_record, h1]
  · have h1f : (name.isEmpty || title.isEmpty || !skills.truthy) = false := by
      cases hx : (name.isEmpty || title.isEmpty || !skills.truthy) with
      | false => rfl
      | true => exact absurd hx h1
    have h2 : skills.isArrB = false := by
      simp only [Bool.or_eq_false_iff] at h1f
      obtain ⟨⟨hn, ht⟩, hs⟩ := h1f
      rcases h with h | h | h | h
      · simp [h] at hn
      · simp [h] at ht
      · simp [h] at hs
      · exact h
    refine ⟨?_, "Skills must be provided as a list.", ?_⟩
    · simp [save_candidate_record, h1f, h2]
    · simp [save_candidate_record, h1f, h2]

theorem C10_save_validation_short_circuits_witness :
    ("Ann".isEmpty = true ∨ "Dev".isEmpty = true
      ∨ (Json.str "python").truthy = false ∨ (Json.str "python").isArrB = false)
    ∧ ((save_candidate_record "Ann" "Dev" (Json.str "python")
          (.fail .timeout) (.fail .timeout)).2 = []
       ∧ ∃ e, (save_candidate_record "Ann" "Dev" (Json.str "python")
            (.fail .timeout) (.fail .timeout)).1
          = Json.obj [("status", Json.str "failed"), ("error", Json.str e)]) :=
  ⟨Or.inr (Or.inr (Or.inr rfl)),
   C10_save_validation_short_circuits "Ann" "Dev" (Json.str "python")
     (.fail .timeout) (.fail .timeout) (Or.inr (Or.inr (Or.inr rfl)))⟩
